import Mathlib

/-!
Verification development for the "Filter Clashes" Next.js workshop repository.

The repository's behaviour lives in a handful of TypeScript functions:
the server action `filterClashes` (src/README.md, Server Action
Implementation), the route handler `GET` for `/api/clashes`
(src/README.md, API Route Handler Implementation), the client hook
`useClashes` with its inner `fetchClashes` (src/README.md, Custom Hook
Implementation), and the create-form server action `createClash` with its
zod schema `createClashSchema` (src/unnamed/part_001).

JavaScript strings are modelled as lists of code points (`JSStr`), so
`toLowerCase`, `trim`, `includes` and `split` become list programs whose
behaviour matches the JS methods on the character ranges the repository
uses.  Fallible async calls are modelled with `Except`, where a thrown
JS value is an `Option JSStr`: `some m` is an `Error` carrying message
`m`, `none` is a thrown non-`Error` value.
-/

/-- A JavaScript string: a finite sequence of code points. -/
abbrev JSStr := List Nat

/-- Convenience: build a `JSStr` from a Lean string literal. -/
def Str (s : String) : JSStr := s.toList.map Char.toNat

/-- Code-point model of `String.prototype.toLowerCase` on the ASCII
letters: `A`..`Z` (65..90) map to `a`..`z` (97..122), everything else is
fixed. -/
def lowerCode (c : Nat) : Nat :=
  if 65 ≤ c ∧ c ≤ 90 then c + 32 else c

/-- Code-point model of the whitespace class removed by
`String.prototype.trim`: space (32) and the control characters tab,
line feed, vertical tab, form feed, carriage return (9..13). -/
def isSpaceCode (c : Nat) : Bool :=
  decide (c = 32) || decide (9 ≤ c ∧ c ≤ 13)

/-- Model of `s.toLowerCase()`. -/
def jsToLower (s : JSStr) : JSStr := s.map lowerCode

/-- Model of `s.trim()`: drop leading and trailing whitespace. -/
def jsTrim (s : JSStr) : JSStr :=
  ((s.dropWhile isSpaceCode).reverse.dropWhile isSpaceCode).reverse

/-- Model of `s.includes(pat)`: `pat` occurs as a contiguous substring of `s`. -/
def jsIncludes (s pat : JSStr) : Bool :=
  match s with
  | [] => pat.isEmpty
  | _ :: rest => List.isPrefixOf pat s || jsIncludes rest pat

/-- A peer reference `{id, name}` as returned by the GraphQL query. -/
structure Peer where
  id : JSStr
  name : JSStr
deriving DecidableEq

/-- A clash record as returned by the `GetAllClashes` GraphQL query.
`title` and `description` are `Option`s: `filterClashes` accesses them
with `?.`/`?? false`, so the embedding keeps absence explicit. -/
structure Clash where
  id : JSStr
  title : Option JSStr
  description : Option JSStr
  location : JSStr
  address : JSStr
  date : JSStr
  pictureUrl : JSStr
  createdByPeer : Peer
  participants : List Peer
deriving DecidableEq

/-- Embedding of the per-record test
`clash.title?.toLowerCase().includes(searchTerm) ?? false`:
a missing field contributes `false`. -/
def optContainsTerm (field : Option JSStr) (searchTerm : JSStr) : Bool :=
  (field.map (fun s => jsIncludes (jsToLower s) searchTerm)).getD false

/-- The predicate applied by `data.clashes.filter` inside
`filterClashes`: title match OR description match. -/
def clashMatches (searchTerm : JSStr) (clash : Clash) : Bool :=
  optContainsTerm clash.title searchTerm || optContainsTerm clash.description searchTerm

/-- The filtering logic of `filterClashes` (src/README.md, `actions.ts`)
applied to the list fetched from GraphQL: if
`!term || term.trim() === ''` the full list is returned, otherwise
`searchTerm := term.toLowerCase().trim()` and records are kept when
title or description contains it. -/
def filterClashesList (clashes : List Clash) (term : JSStr) : List Clash :=
  if term = [] ∨ jsTrim term = [] then clashes
  else
    let searchTerm := jsTrim (jsToLower term)
    clashes.filter (clashMatches searchTerm)

/-- The full server action `filterClashes`: the GraphQL fetch is the
`backend` argument (`.ok data` when `getClient().query` resolves,
`.error t` when it throws `t`).  The `try`/`catch` logs the cause and
throws `new Error('Failed to filter clashes')`. -/
def filterClashes (backend : Except (Option JSStr) (List Clash)) (term : JSStr) :
    Except (Option JSStr) (List Clash) :=
  match backend with
  | .ok data => .ok (filterClashesList data term)
  | .error _ => .error (some (Str "Failed to filter clashes"))

-- sanity examples (filtering behaviour on concrete data)
example :
    filterClashesList
      [{ id := Str "1", title := some (Str "Apple"), description := none,
         location := [], address := [], date := [], pictureUrl := [],
         createdByPeer := ⟨[], []⟩, participants := [] }]
      (Str "APPLE") =
      [{ id := Str "1", title := some (Str "Apple"), description := none,
         location := [], address := [], date := [], pictureUrl := [],
         createdByPeer := ⟨[], []⟩, participants := [] }] := by decide

example :
    filterClashesList
      [{ id := Str "1", title := some (Str "Apple"), description := none,
         location := [], address := [], date := [], pictureUrl := [],
         createdByPeer := ⟨[], []⟩, participants := [] }]
      (Str "pear") = [] := by decide

/-! ### Elementary facts about the string model -/

theorem isSpaceCode_lowerCode (c : Nat) : isSpaceCode (lowerCode c) = isSpaceCode c := by
  unfold lowerCode isSpaceCode
  split
  · next h =>
    have h1 : ¬(c + 32 = 32) := by omega
    have h2 : ¬(9 ≤ c + 32 ∧ c + 32 ≤ 13) := by omega
    have h3 : ¬(c = 32) := by omega
    have h4 : ¬(9 ≤ c ∧ c ≤ 13) := by omega
    simp [h1, h2, h3, h4]
  · rfl

theorem dropWhile_space_jsToLower (l : JSStr) :
    (jsToLower l).dropWhile isSpaceCode = jsToLower (l.dropWhile isSpaceCode) := by
  unfold jsToLower
  rw [List.dropWhile_map]
  have h : (isSpaceCode ∘ lowerCode) = isSpaceCode := funext isSpaceCode_lowerCode
  rw [h]

theorem jsToLower_reverse (l : JSStr) : jsToLower l.reverse = (jsToLower l).reverse := by
  unfold jsToLower
  exact List.map_reverse lowerCode l

/-- Lowercasing and trimming commute: lowering never creates or destroys
whitespace. -/
theorem jsTrim_jsToLower (t : JSStr) : jsTrim (jsToLower t) = jsToLower (jsTrim t) := by
  unfold jsTrim
  rw [dropWhile_space_jsToLower, ← jsToLower_reverse, dropWhile_space_jsToLower,
    ← jsToLower_reverse]

theorem jsToLower_eq_nil (t : JSStr) : jsToLower t = [] ↔ t = [] := by
  unfold jsToLower
  simp

theorem jsTrim_nil : jsTrim [] = [] := rfl

/-- The guard `!term || term.trim() === ''` holds iff the trimmed term is
empty. -/
theorem filter_guard_iff (t : JSStr) : (t = [] ∨ jsTrim t = []) ↔ jsTrim t = [] := by
  constructor
  · rintro (rfl | h)
    · exact jsTrim_nil
    · exact h
  · exact Or.inr

/-- Rewrites `filterClashesList` into guard-normalised form. -/
theorem filterClashesList_eq_ite (l : List Clash) (t : JSStr) :
    filterClashesList l t =
      if jsTrim t = [] then l else l.filter (clashMatches (jsTrim (jsToLower t))) := by
  unfold filterClashesList
  by_cases h : jsTrim t = []
  · rw [if_pos ((filter_guard_iff t).mpr h), if_pos h]
  · rw [if_neg (fun hg => h ((filter_guard_iff t).mp hg)), if_neg h]

/-- The membership condition claimed by the spec for `filterClashes`,
stated verbatim: the term is the empty string, or the lowercased title
contains the lowercased trimmed term, or the lowercased description
does. -/
def claimedMembership (t : JSStr) (c : Clash) : Prop :=
  t = [] ∨ optContainsTerm c.title (jsToLower (jsTrim t)) = true ∨
    optContainsTerm c.description (jsToLower (jsTrim t)) = true

instance (t : JSStr) (c : Clash) : Decidable (claimedMembership t c) := by
  unfold claimedMembership
  infer_instance

/-- A record carrying neither title nor description. -/
def noFieldClash : Clash :=
  { id := Str "1", title := none, description := none, location := [], address := [],
    date := [], pictureUrl := [], createdByPeer := ⟨[], []⟩, participants := [] }

/-- A record with no title and a matching description. -/
def descOnlyClash : Clash :=
  { id := Str "2", title := none, description := some (Str "world party"),
    location := [], address := [], date := [], pictureUrl := [],
    createdByPeer := ⟨[], []⟩, participants := [] }

/-- C1 counterexample: for the whitespace-only term `" "` the code
returns the whole fetched list, so a record with neither title nor
description is in the result, while the claimed condition (term empty,
or a field containing the trimmed term) is false for it. -/
theorem filterClashes_claim_cex :
    noFieldClash ∈ filterClashesList [noFieldClash] (Str " ") ∧
      ¬ claimedMembership (Str " ") noFieldClash := by decide

/-- C1 (amended: `T` empty is weakened to `trim(T)` empty): for a record
`c` of the fetched list, `c` is in `filterClashes(T)`'s result iff the
trimmed term is empty, or the lowercased title contains the lowercased
trimmed term, or the lowercased description does. -/
theorem filterClashes_membership (l : List Clash) (t : JSStr) (c : Clash) (hc : c ∈ l) :
    c ∈ filterClashesList l t ↔
      (jsTrim t = [] ∨ optContainsTerm c.title (jsToLower (jsTrim t)) = true ∨
        optContainsTerm c.description (jsToLower (jsTrim t)) = true) := by
  rw [filterClashesList_eq_ite]
  by_cases h : jsTrim t = []
  · rw [if_pos h]
    simp [h, hc]
  · rw [if_neg h, List.mem_filter]
    unfold clashMatches
    rw [jsTrim_jsToLower]
    simp [hc, h, Bool.or_eq_true]

/-- C1 witness: the amended membership condition evaluated on a concrete
record and term. -/
theorem filterClashes_membership_witness :
    descOnlyClash ∈ [descOnlyClash] ∧
      (descOnlyClash ∈ filterClashesList [descOnlyClash] (Str "WORLD") ↔
        (jsTrim (Str "WORLD") = [] ∨
          optContainsTerm descOnlyClash.title (jsToLower (jsTrim (Str "WORLD"))) = true ∨
          optContainsTerm descOnlyClash.description (jsToLower (jsTrim (Str "WORLD"))) = true)) :=
  ⟨by decide, filterClashes_membership [descOnlyClash] (Str "WORLD") descOnlyClash (by decide)⟩

/-- C3: when the term trims to the empty string, `filterClashes` returns
the fetched list itself — same records, same order, nothing inserted,
removed or re-sorted. -/
theorem filterClashes_empty_term (l : List Clash) (t : JSStr) (h : jsTrim t = []) :
    filterClashesList l t = l := by
  rw [filterClashesList_eq_ite, if_pos h]

/-- C3 witness: a whitespace-only term returns the list unchanged. -/
theorem filterClashes_empty_term_witness :
    jsTrim (Str "  ") = [] ∧ filterClashesList [noFieldClash, descOnlyClash] (Str "  ") =
      [noFieldClash, descOnlyClash] :=
  ⟨by decide, filterClashes_empty_term [noFieldClash, descOnlyClash] (Str "  ") (by decide)⟩

/-- C9: filtering is case-insensitive — two terms with the same
lowercasing produce identical result lists. -/
theorem filterClashes_case_insensitive (l : List Clash) (t1 t2 : JSStr)
    (h : jsToLower t1 = jsToLower t2) :
    filterClashesList l t1 = filterClashesList l t2 := by
  rw [filterClashesList_eq_ite, filterClashesList_eq_ite]
  have hterm : jsTrim (jsToLower t1) = jsTrim (jsToLower t2) := by rw [h]
  have hnil : (jsTrim t1 = []) ↔ (jsTrim t2 = []) := by
    rw [← jsToLower_eq_nil (jsTrim t1), ← jsToLower_eq_nil (jsTrim t2),
      ← jsTrim_jsToLower, ← jsTrim_jsToLower, h]
  by_cases h1 : jsTrim t1 = []
  · rw [if_pos h1, if_pos (hnil.mp h1)]
  · rw [if_neg h1, if_neg (fun h2 => h1 (hnil.mpr h2)), hterm]

/-- C9 witness: `'WORLD'` and `'world'` filter identically on a concrete
list. -/
theorem filterClashes_case_insensitive_witness :
    jsToLower (Str "WORLD") = jsToLower (Str "world") ∧
      filterClashesList [noFieldClash, descOnlyClash] (Str "WORLD") =
        filterClashesList [noFieldClash, descOnlyClash] (Str "world") :=
  ⟨by decide,
    filterClashes_case_insensitive [noFieldClash, descOnlyClash] (Str "WORLD") (Str "world")
      (by decide)⟩

/-- C10: for every term, the result of `filterClashes` is an
order-preserving subsequence of the fetched list — filtering never
reorders, duplicates or introduces records. -/
theorem filterClashes_result_sublist (l : List Clash) (t : JSStr) :
    (filterClashesList l t).Sublist l := by
  rw [filterClashesList_eq_ite]
  by_cases h : jsTrim t = []
  · rw [if_pos h]
  · rw [if_neg h]
    exact List.filter_sublist l

/-- C6: a record with a missing title (resp. description) never makes the
filter throw — absence is embedded as `Option.none`, and
`optContainsTerm none` is `false` — and for a non-empty trimmed term such
a record is kept exactly when the other field matches. -/
theorem filterClashes_missing_field (l : List Clash) (t : JSStr) (c : Clash)
    (hterm : jsTrim t ≠ []) (hc : c ∈ l) :
    (c.title = none →
      (c ∈ filterClashesList l t ↔
        optContainsTerm c.description (jsTrim (jsToLower t)) = true)) ∧
    (c.description = none →
      (c ∈ filterClashesList l t ↔
        optContainsTerm c.title (jsTrim (jsToLower t)) = true)) := by
  rw [filterClashesList_eq_ite, if_neg hterm]
  constructor
  · intro hnone
    rw [List.mem_filter]
    unfold clashMatches
    rw [hnone]
    simp [optContainsTerm, hc]
  · intro hnone
    rw [List.mem_filter]
    unfold clashMatches
    rw [hnone]
    simp [optContainsTerm, hc]

/-- C7: the action's error is independent of the underlying cause — any
two failing backends, with any terms, surface the same thrown error,
`Error('Failed to filter clashes')`; the cause is only logged. -/
theorem filterClashes_generic_error (e1 e2 : Option JSStr) (t1 t2 : JSStr) :
    filterClashes (.error e1) t1 = filterClashes (.error e2) t2 ∧
      filterClashes (.error e1) t1 = .error (some (Str "Failed to filter clashes")) :=
  ⟨rfl, rfl⟩

/-! ### The `/api/clashes` route handler -/

/-- Model of `error instanceof Error ? error.message : 'Unknown error'`. -/
def errMessage : Option JSStr → JSStr
  | some m => m
  | none => Str "Unknown error"

/-- The JSON envelope together with the HTTP status produced by
`NextResponse.json` in the route handler. Fields absent from a body are
`none`. -/
structure ApiResponse where
  status : Nat
  success : Bool
  data : Option (List Clash)
  count : Option Nat
  error : Option JSStr
  message : Option JSStr
deriving DecidableEq

/-- The `GET` route handler of `src/app/api/clashes/route.ts`:
`term := searchParams.get('term') ?? ''`, delegate to `filterClashes`,
answer 200 `{success, data, count}` on success and 500
`{success: false, error, message}` when the action throws. -/
def GET (backend : Except (Option JSStr) (List Clash)) (termParam : Option JSStr) :
    ApiResponse :=
  let term := termParam.getD []
  match filterClashes backend term with
  | .ok clashes =>
      { status := 200, success := true, data := some clashes, count := some clashes.length,
        error := none, message := none }
  | .error e =>
      { status := 500, success := false, data := none, count := none,
        error := some (Str "Failed to fetch clashes"), message := some (errMessage e) }

/-- C4: the handler is total (it always answers 200 or 500, never
throwing uncaught); on success it answers 200 with
`{success: true, data: L, count: length L}`; when the action throws it
answers 500 with `{success: false, error: 'Failed to fetch clashes',
message: thrown message or 'Unknown error'}`. -/
theorem GET_envelope (backend : Except (Option JSStr) (List Clash))
    (termParam : Option JSStr) :
    ((GET backend termParam).status = 200 ∨ (GET backend termParam).status = 500) ∧
    (∀ L, filterClashes backend (termParam.getD []) = .ok L →
      GET backend termParam =
        { status := 200, success := true, data := some L, count := some L.length,
          error := none, message := none }) ∧
    (∀ e, filterClashes backend (termParam.getD []) = .error e →
      GET backend termParam =
        { status := 500, success := false, data := none, count := none,
          error := some (Str "Failed to fetch clashes"), message := some (errMessage e) }) := by
  have hG : GET backend termParam =
      match filterClashes backend (termParam.getD []) with
      | .ok clashes =>
          { status := 200, success := true, data := some clashes, count := some clashes.length,
            error := none, message := none }
      | .error e =>
          { status := 500, success := false, data := none, count := none,
            error := some (Str "Failed to fetch clashes"), message := some (errMessage e) } := rfl
  cases hb : filterClashes backend (termParam.getD []) with
  | ok L =>
    rw [hG, hb]
    refine ⟨Or.inl rfl, fun L2 hL2 => ?_, fun e2 he2 => ?_⟩
    · injection hL2 with h
      subst h
      rfl
    · exact Except.noConfusion he2
  | error e =>
    rw [hG, hb]
    refine ⟨Or.inr rfl, fun L2 hL2 => ?_, fun e2 he2 => ?_⟩
    · exact Except.noConfusion hL2
    · injection he2 with h
      subst h
      rfl

/-- C4 witness: both envelopes evaluated at concrete backends. -/
theorem GET_envelope_witness :
    GET (Except.ok [descOnlyClash]) none =
      { status := 200, success := true, data := some [descOnlyClash],
        count := some [descOnlyClash].length, error := none, message := none } ∧
    GET (Except.error (some (Str "boom"))) none =
      { status := 500, success := false, data := none, count := none,
        error := some (Str "Failed to fetch clashes"),
        message := some (errMessage (some (Str "Failed to filter clashes"))) } :=
  ⟨(GET_envelope (Except.ok [descOnlyClash]) none).2.1 [descOnlyClash] rfl,
   (GET_envelope (Except.error (some (Str "boom"))) none).2.2
     (some (Str "Failed to filter clashes")) rfl⟩

/-! ### The `useClashes` hook -/

/-- The hook's state triple: `clashes`, `loading`, `error`. -/
structure HookState where
  clashes : List Clash
  loading : Bool
  error : Option JSStr
deriving DecidableEq

/-- The `useState` initial values of `useClashes`. -/
def initialHookState : HookState := { clashes := [], loading := true, error := none }

/-- The resolved `fetch` response as seen by `fetchClashes`: `ok` and
`status` of the HTTP response, plus the parsed JSON body fields it
reads. -/
structure FetchResponse where
  ok : Bool
  status : Nat
  success : Bool
  data : List Clash
  message : Option JSStr
deriving DecidableEq

/-- Model of JS `a || b` on a possibly-absent string: absent or empty is falsy. -/
def jsOrStr (s : Option JSStr) (d : JSStr) : JSStr :=
  match s with
  | some m => if m = [] then d else m
  | none => d

/-- Decimal rendering of a number interpolated into a template string. -/
def natToStr (n : Nat) : JSStr := (Nat.toDigits 10 n).map Char.toNat

/-- The `try` body of `fetchClashes` after `fetch` settles: a network
throw propagates; `!response.ok` throws the HTTP-status error;
`!result.success` throws `result.message || 'Failed to fetch clashes'`;
otherwise yields `result.data`. -/
def fetchEval (net : Except (Option JSStr) FetchResponse) :
    Except (Option JSStr) (List Clash) :=
  match net with
  | .error t => .error t
  | .ok r =>
    if r.ok = false then
      .error (some (Str "HTTP error! status: " ++ natToStr r.status))
    else if r.success = false then
      .error (some (jsOrStr r.message (Str "Failed to fetch clashes")))
    else .ok r.data

/-- The synchronous prefix of `fetchClashes`:
`setLoading(true); setError(null)` before the `await`. -/
def fetchStart (st : HookState) : HookState := { st with loading := true, error := none }

/-- Model of `err instanceof Error ? err.message : 'An unknown error occurred'`. -/
def thrownMsg (t : Option JSStr) : JSStr := t.getD (Str "An unknown error occurred")

/-- The continuation of one `fetchClashes` invocation once its awaited
work settles: on success `setClashes(result.data)`; in `catch`
`setError(...)` and `setClashes([])`; in `finally`
`setLoading(false)`. -/
def applyFetchResult (st : HookState) (res : Except (Option JSStr) (List Clash)) :
    HookState :=
  match res with
  | .ok data => { st with clashes := data, loading := false }
  | .error t => { st with error := some (thrownMsg t), clashes := [], loading := false }

/-- One complete, un-interleaved `fetchClashes(term)` run (which is what
`reload(term)` awaits). -/
def fetchClashesRun (st : HookState) (net : Except (Option JSStr) FetchResponse) :
    HookState :=
  applyFetchResult (fetchStart st) (fetchEval net)

/-- C5: on every `reload`: loading is `true` and error `null` before the
async work; on success the clash list is replaced wholesale and error
stays `null`; on any throw the error message (or the generic fallback)
is stored and the list is reset to empty; and loading ends `false` in
every outcome. -/
theorem useClashes_reload_spec (st : HookState) (net : Except (Option JSStr) FetchResponse) :
    (fetchStart st).loading = true ∧ (fetchStart st).error = none ∧
    (∀ data, fetchEval net = .ok data →
      fetchClashesRun st net = { clashes := data, loading := false, error := none }) ∧
    (∀ t, fetchEval net = .error t →
      fetchClashesRun st net =
        { clashes := [], loading := false, error := some (thrownMsg t) }) ∧
    (fetchClashesRun st net).loading = false := by
  refine ⟨rfl, rfl, fun data hd => ?_, fun t ht => ?_, ?_⟩
  · unfold fetchClashesRun
    rw [hd]
    rfl
  · unfold fetchClashesRun
    rw [ht]
    rfl
  · unfold fetchClashesRun applyFetchResult
    cases fetchEval net <;> rfl

/-- C5 witness: a concrete successful reload replaces the list. -/
theorem useClashes_reload_spec_witness :
    fetchClashesRun initialHookState
        (Except.ok
          { ok := true, status := 200, success := true, data := [descOnlyClash],
            message := none }) =
      { clashes := [descOnlyClash], loading := false, error := none } :=
  (useClashes_reload_spec initialHookState _).2.2.1 [descOnlyClash] rfl

/-- C6 witness: a record with no title is kept for the term `'wor'`
because its description matches. -/
theorem filterClashes_missing_field_witness :
    jsTrim (Str "wor") ≠ [] ∧
      (descOnlyClash ∈ filterClashesList [descOnlyClash] (Str "wor") ↔
        optContainsTerm descOnlyClash.description (jsTrim (jsToLower (Str "wor"))) = true) :=
  ⟨by decide,
    (filterClashes_missing_field [descOnlyClash] (Str "wor") descOnlyClash (by decide)
      (by decide)).1 rfl⟩

/-! ### Overlapping reloads -/

/-- Two overlapping `fetchClashes` invocations of one hook instance:
both have run their synchronous prefixes, then the two awaited results
are applied in arrival order.  The code keeps no request-generation
token and no abort signal, so each arriving response runs its
invocation's `setClashes`/`setError`/`setLoading` updates
unconditionally.  `term2First = true` means the second request's
response arrives before the first request's response. -/
def twoReloadsRun (st : HookState) (net1 net2 : Except (Option JSStr) FetchResponse)
    (term2First : Bool) : HookState :=
  let started := fetchStart (fetchStart st)
  if term2First then
    applyFetchResult (applyFetchResult started (fetchEval net2)) (fetchEval net1)
  else
    applyFetchResult (applyFetchResult started (fetchEval net1)) (fetchEval net2)

/-- A clash whose title matches `'a'` but not `'ab'`. -/
def appleClash : Clash :=
  { id := Str "c1", title := some (Str "apple"), description := none, location := [],
    address := [], date := [], pictureUrl := [], createdByPeer := ⟨[], []⟩,
    participants := [] }

/-- A clash whose title matches both `'a'` and `'ab'`. -/
def absClash : Clash :=
  { id := Str "c2", title := some (Str "absolute"), description := none, location := [],
    address := [], date := [], pictureUrl := [], createdByPeer := ⟨[], []⟩,
    participants := [] }

/-- The successful `/api/clashes` response for a term over the fixed
backend list `[appleClash, absClash]`. -/
def respFor (term : JSStr) : FetchResponse :=
  { ok := true, status := 200, success := true,
    data := filterClashesList [appleClash, absClash] term, message := none }

/-- C2 fails on the code: `reload('a')` is issued, then `reload('ab')`
before the first resolves; the `'ab'` response arrives first and the
`'a'` response last.  The final hook state holds the `'a'` results,
which differ from the `'ab'` results — the stale response overwrote the
newer one. -/
theorem useClashes_stale_overwrite :
    (twoReloadsRun initialHookState (Except.ok (respFor (Str "a")))
        (Except.ok (respFor (Str "ab"))) true).clashes =
      filterClashesList [appleClash, absClash] (Str "a") ∧
    filterClashesList [appleClash, absClash] (Str "a") ≠
      filterClashesList [appleClash, absClash] (Str "ab") := by
  constructor
  · rfl
  · decide

/-! ### The create-clash form action -/

/-- zod's default message when a string field receives `null` (a missing
form entry read with `formData.get`). -/
def invalidTypeMsg : JSStr := Str "Expected string, received null"

/-- Model of `z.string().min(1, 'Title is required').max(100, 'Title too long')`. -/
def titleErrors (v : Option JSStr) : List JSStr :=
  match v with
  | none => [invalidTypeMsg]
  | some s =>
    (if s.length < 1 then [Str "Title is required"] else []) ++
      (if 100 < s.length then [Str "Title too long"] else [])

/-- Model of `z.string().min(10, 'Description must be at least 10 characters')`. -/
def descriptionErrors (v : Option JSStr) : List JSStr :=
  match v with
  | none => [invalidTypeMsg]
  | some s => if s.length < 10 then [Str "Description must be at least 10 characters"] else []

/-- Model of `z.string().min(1, msg)` for the location, address, date and
createdByPeerId fields. -/
def minNonEmptyErrors (msg : JSStr) (v : Option JSStr) : List JSStr :=
  match v with
  | none => [invalidTypeMsg]
  | some s => if s.length < 1 then [msg] else []

/-- ASCII letter code point. -/
def isAlphaCode (c : Nat) : Bool :=
  decide (65 ≤ c ∧ c ≤ 90) || decide (97 ≤ c ∧ c ≤ 122)

/-- ASCII digit code point. -/
def isDigitCode (c : Nat) : Bool := decide (48 ≤ c ∧ c ≤ 57)

/-- Modelled from the behaviour of the external zod library:
`z.string().url()` accepts exactly the strings the WHATWG `URL`
constructor parses, i.e. a scheme that starts with a letter and consists
of letters, digits, `+`, `-`, `.`, followed by `:` and a non-empty
remainder. -/
def isValidUrl (s : JSStr) : Bool :=
  let scheme := s.takeWhile (fun c => decide (c ≠ 58))
  let rest := s.drop scheme.length
  (match scheme with
    | [] => false
    | c :: _ => isAlphaCode c) &&
    scheme.all (fun c => isAlphaCode c || isDigitCode c || decide (c = 43) ||
      decide (c = 45) || decide (c = 46)) &&
    decide (rest ≠ [])

/-- Model of `z.string().url('Must be a valid URL')`. -/
def pictureUrlErrors (v : Option JSStr) : List JSStr :=
  match v with
  | none => [invalidTypeMsg]
  | some s => if isValidUrl s then [] else [Str "Must be a valid URL"]

/-- Model of JS `s.split(',')`. -/
def splitComma : JSStr → List JSStr
  | [] => [[]]
  | c :: rest =>
    let r := splitComma rest
    if c = 44 then [] :: r
    else
      match r with
      | h :: t => (c :: h) :: t
      | [] => [[c]]

/-- The preprocessing of the `participantIds` form value before zod:
`raw ? raw.split(',').map(id => id.trim()).filter(Boolean) : []` — a
falsy (absent or empty) value becomes `[]`, otherwise the string is
split on commas, each entry trimmed, empties dropped. -/
def parseParticipantIds (raw : Option JSStr) : List JSStr :=
  match raw with
  | none => []
  | some s =>
    if s = [] then []
    else ((splitComma s).map jsTrim).filter (fun x => decide (x ≠ []))

example : parseParticipantIds (some (Str "a, b,,c ")) = [Str "a", Str "b", Str "c"] := by
  decide

/-- The raw form values extracted with `formData.get` (each
`string | null`). -/
structure CreateForm where
  title : Option JSStr
  description : Option JSStr
  location : Option JSStr
  address : Option JSStr
  date : Option JSStr
  pictureUrl : Option JSStr
  participantIds : Option JSStr
  createdByPeerId : Option JSStr
deriving DecidableEq

/-- The validated mutation input (`validatedFields.data`) sent as the
`CreateClash` GraphQL variables. -/
structure CreateClashInput where
  title : JSStr
  description : JSStr
  location : JSStr
  address : JSStr
  date : JSStr
  pictureUrl : JSStr
  participantIds : List JSStr
  createdByPeerId : JSStr
deriving DecidableEq

/-- One entry of zod's `error.flatten().fieldErrors`: present only when
the field has at least one issue. -/
def fieldErrorEntry (name : JSStr) (errs : List JSStr) : List (JSStr × List JSStr) :=
  if errs = [] then [] else [(name, errs)]

/-- All field-keyed error lists of `createClashSchema.safeParse` on the
preprocessed form values. -/
def createClashFieldErrors (f : CreateForm) : List (JSStr × List JSStr) :=
  fieldErrorEntry (Str "title") (titleErrors f.title) ++
    fieldErrorEntry (Str "description") (descriptionErrors f.description) ++
    fieldErrorEntry (Str "location") (minNonEmptyErrors (Str "Location is required") f.location) ++
    fieldErrorEntry (Str "address") (minNonEmptyErrors (Str "Address is required") f.address) ++
    fieldErrorEntry (Str "date") (minNonEmptyErrors (Str "Date is required") f.date) ++
    fieldErrorEntry (Str "pictureUrl") (pictureUrlErrors f.pictureUrl) ++
    fieldErrorEntry (Str "createdByPeerId")
      (minNonEmptyErrors (Str "Valid peer ID required") f.createdByPeerId)

/-- Model of `createClashSchema.safeParse` on the preprocessed form values:
either the validated data or the field-keyed errors. -/
def createClashSafeParse (f : CreateForm) :
    Except (List (JSStr × List JSStr)) CreateClashInput :=
  if createClashFieldErrors f = [] then
    .ok
      { title := f.title.getD [], description := f.description.getD [],
        location := f.location.getD [], address := f.address.getD [],
        date := f.date.getD [], pictureUrl := f.pictureUrl.getD [],
        participantIds := parseParticipantIds f.participantIds,
        createdByPeerId := f.createdByPeerId.getD [] }
  else .error (createClashFieldErrors f)

/-- Result of the GraphQL mutation call: resolved with
`data?.createClash?.id` (possibly absent), or thrown. -/
inductive MutationResult where
  | resolved (returnedId : Option JSStr)
  | thrown
deriving DecidableEq

/-- Observable outcome of one `createClash` submission. -/
inductive CreateOutcome where
  | validationFailed (errors : List (JSStr × List JSStr)) (message : JSStr)
  | redirected (id : JSStr)
  | failed (message : JSStr)
deriving DecidableEq

/-- The post-validation half of `createClash`: run the mutation on the
validated input; redirect when an id comes back, otherwise (missing id
or thrown) return the generic failure message. -/
def runMutation (backend : CreateClashInput → MutationResult)
    (input : CreateClashInput) : CreateOutcome :=
  match backend input with
  | .resolved (some id) => .redirected id
  | .resolved none => .failed (Str "Failed to create clash. Please try again.")
  | .thrown => .failed (Str "Failed to create clash. Please try again.")

/-- The `createClash` server action (src/unnamed/part_001): validate with
zod; on failure return the field errors and the validation message
without touching the network; on success run the mutation. -/
def createClash (f : CreateForm) (backend : CreateClashInput → MutationResult) :
    CreateOutcome :=
  match createClashSafeParse f with
  | .error errs => .validationFailed errs (Str "Validation failed. Please check your inputs.")
  | .ok input => runMutation backend input

/-- C8: when validation fails, `createClash` returns the field-keyed
error lists and its outcome is independent of the mutation backend (no
network call); when validation succeeds the mutation runs on the
validated input, whose `participantIds` are derived by
split/trim/drop-empties, and an omitted or empty `participantIds` field
yields the empty list. -/
theorem createClash_validation (f : CreateForm)
    (b1 b2 : CreateClashInput → MutationResult) :
    (∀ errs, createClashSafeParse f = .error errs →
      createClash f b1 =
        .validationFailed errs (Str "Validation failed. Please check your inputs.") ∧
      createClash f b1 = createClash f b2) ∧
    (∀ input, createClashSafeParse f = .ok input →
      createClash f b1 = runMutation b1 input ∧
      input.participantIds = parseParticipantIds f.participantIds ∧
      ((f.participantIds = none ∨ f.participantIds = some []) →
        input.participantIds = [])) := by
  constructor
  · intro errs he
    unfold createClash
    rw [he]
    exact ⟨rfl, rfl⟩
  · intro input hi
    have hp : input.participantIds = parseParticipantIds f.participantIds := by
      unfold createClashSafeParse at hi
      split at hi
      · injection hi with h
        rw [← h]
      · exact Except.noConfusion hi
    refine ⟨?_, hp, ?_⟩
    · unfold createClash
      rw [hi]
    · rintro (h | h) <;> rw [hp, h] <;> rfl

/-- A form failing validation: empty title, 5-character description and
a malformed picture URL. -/
def badCreateForm : CreateForm :=
  { title := some [], description := some (Str "short"), location := some (Str "loc"),
    address := some (Str "addr"), date := some (Str "2025-01-01"),
    pictureUrl := some (Str "not-a-url"), participantIds := none,
    createdByPeerId := some (Str "p1") }

/-- A minimal valid form with the `participantIds` field omitted. -/
def goodCreateForm : CreateForm :=
  { title := some (Str "Party"), description := some (Str "A long description"),
    location := some (Str "Berlin"), address := some (Str "Main St 1"),
    date := some (Str "2025-01-01"),
    pictureUrl := some (Str "https://example.com/p.png"), participantIds := none,
    createdByPeerId := some (Str "p1") }

/-- The validated data of `goodCreateForm`. -/
def goodCreateInput : CreateClashInput :=
  { title := Str "Party", description := Str "A long description",
    location := Str "Berlin", address := Str "Main St 1", date := Str "2025-01-01",
    pictureUrl := Str "https://example.com/p.png", participantIds := [],
    createdByPeerId := Str "p1" }

/-- C8 witness: both branches evaluated — the failing form returns field
errors independently of the backend; the valid form with omitted
`participantIds` reaches the mutation with `participantIds = []`. -/
theorem createClash_validation_witness :
    (createClash badCreateForm (fun _ => MutationResult.thrown) =
        CreateOutcome.validationFailed (createClashFieldErrors badCreateForm)
          (Str "Validation failed. Please check your inputs.") ∧
      createClash badCreateForm (fun _ => MutationResult.thrown) =
        createClash badCreateForm (fun _ => MutationResult.resolved none)) ∧
    (createClash goodCreateForm (fun _ => MutationResult.resolved (some (Str "42"))) =
        runMutation (fun _ => MutationResult.resolved (some (Str "42"))) goodCreateInput ∧
      goodCreateInput.participantIds = parseParticipantIds goodCreateForm.participantIds ∧
      ((goodCreateForm.participantIds = none ∨ goodCreateForm.participantIds = some []) →
        goodCreateInput.participantIds = [])) :=
  ⟨(createClash_validation badCreateForm (fun _ => MutationResult.thrown)
      (fun _ => MutationResult.resolved none)).1 (createClashFieldErrors badCreateForm) rfl,
   (createClash_validation goodCreateForm (fun _ => MutationResult.resolved (some (Str "42")))
      (fun _ => MutationResult.resolved (some (Str "42")))).2 goodCreateInput rfl⟩
